import Mathlib

/-!
Verification of the appointment booking / availability logic of the
hospital management application ("Hospital Project").

The definitions below are a shallow embedding of the relevant handlers of
`controllers/control_auth.py`:

* `validate_booking` / `patient_book_appointment_post` — the POST branch of
  `patient_book_appointment`;
* `doctor_add_availability` — the availability-window registration handler;
* `admin_update_appointment_status`, `doctor_update_appointment_status`,
  `patient_cancel_appointment` — the status-transition handlers;
* `patient_search_doctors` — the patient-facing doctor search.

Dates (`YYYY-MM-DD`) and times (`HH:MM`) are stored as strings, exactly as in
the source (`models.py` stores `db.String` columns).  Where the Python code
calls `datetime.strptime`, the embedding uses `parseDate` / `parseTime`,
which reproduce CPython's `_strptime` regexes for the formats `%Y-%m-%d`
and `%H:%M` together with the calendar validation performed by the
`datetime` constructor.  Where the Python code compares raw strings
(`time < avail.start_time`), the embedding uses `strLt`, code-point
lexicographic comparison, which is Python's `str` ordering.
-/

/-- A parsed calendar date, as produced by `datetime.strptime(s, "%Y-%m-%d").date()`. -/
structure PDate where
  year : Nat
  month : Nat
  day : Nat
deriving DecidableEq, Repr

/-- A parsed clock time, as produced by `datetime.strptime(s, "%H:%M").time()`. -/
structure PTime where
  hour : Nat
  minute : Nat
deriving DecidableEq, Repr

/-- Gregorian leap-year test (as in Python's `calendar.isleap`, used by
`datetime` to validate the day of month). -/
def isLeap (y : Nat) : Bool :=
  y % 4 == 0 && (y % 100 != 0 || y % 400 == 0)

/-- Number of days in month `m` of year `y` (Python `calendar.monthrange`). -/
def daysInMonth (y m : Nat) : Nat :=
  if m = 2 then (if isLeap y then 29 else 28)
  else if m = 4 ∨ m = 6 ∨ m = 9 ∨ m = 11 then 30
  else 31

/-- Split a character list at every occurrence of `sep` (Python
`str.split(sep)` restricted to a one-character separator; also the behaviour
of matching literal separators in a `strptime` format regex). -/
def splitOnChar (sep : Char) : List Char → List (List Char)
  | [] => [[]]
  | c :: cs =>
    if c = sep then [] :: splitOnChar sep cs
    else
      match splitOnChar sep cs with
      | [] => [[c]]
      | g :: gs => (c :: g) :: gs

/-- The numeric value of a decimal digit character, `none` otherwise. -/
def digitVal (c : Char) : Option Nat :=
  if 48 ≤ c.toNat ∧ c.toNat ≤ 57 then some (c.toNat - 48) else none

/-- Accumulating decimal reading of a digit string. -/
def charsToNat? : List Char → Nat → Option Nat
  | [], acc => some acc
  | c :: cs, acc =>
    match digitVal c with
    | some v => charsToNat? cs (acc * 10 + v)
    | none => none

/-- The value of a nonempty all-digit field, `none` otherwise (what a `\d...`
group of a `strptime` regex accepts). -/
def decDigits? (cs : List Char) : Option Nat :=
  match cs with
  | [] => none
  | _ :: _ => charsToNat? cs 0

/-- `datetime.strptime(s, "%Y-%m-%d").date()` as a total function.
CPython's `_strptime` compiles `%Y-%m-%d` to the regex
`(?P<Y>\d\d\d\d)-(?P<m>1[0-2]|0[1-9]|[1-9])-(?P<d>3[01]|[12]\d|0[1-9]|[1-9])`
and requires the whole string to be consumed; the `datetime` constructor then
requires `1 ≤ year` and `day ≤ daysInMonth`.  Since the separators are not
digits, full-match against that regex is equivalent to: exactly three
`-`-separated fields, a 4-digit year, a 1–2-digit month in 1..12 and a
1–2-digit day in 1..31. -/
def parseDate (s : String) : Option PDate :=
  match splitOnChar '-' s.data with
  | [ys, ms, ds] =>
    if ys.length = 4 then
      match decDigits? ys, decDigits? ms, decDigits? ds with
      | some y, some m, some d =>
        if 1 ≤ y ∧ ms.length ≤ 2 ∧ 1 ≤ m ∧ m ≤ 12 ∧
            ds.length ≤ 2 ∧ 1 ≤ d ∧ d ≤ daysInMonth y m then
          some ⟨y, m, d⟩
        else none
      | _, _, _ => none
    else none
  | _ => none

/-- `datetime.strptime(s, "%H:%M").time()` as a total function.
CPython compiles `%H:%M` to `(?P<H>2[0-3]|[0-1]\d|\d):(?P<M>[0-5]\d|\d)`
with full match: two `:`-separated fields, a 1–2-digit hour ≤ 23 and a
1–2-digit minute ≤ 59. -/
def parseTime (s : String) : Option PTime :=
  match splitOnChar ':' s.data with
  | [hs, ms] =>
    match decDigits? hs, decDigits? ms with
    | some h, some m =>
      if hs.length ≤ 2 ∧ h ≤ 23 ∧ ms.length ≤ 2 ∧ m ≤ 59 then
        some ⟨h, m⟩
      else none
    | _, _ => none
  | _ => none

/-- Strict ordering of parsed dates (Python `datetime.date` ordering:
lexicographic on (year, month, day)). -/
def dateLTb (a b : PDate) : Bool :=
  decide (a.year < b.year) ||
    (a.year == b.year && (decide (a.month < b.month) ||
      (a.month == b.month && decide (a.day < b.day))))

/-- Non-strict ordering of parsed dates (`<=` on Python `datetime.date`). -/
def dateLEb (a b : PDate) : Bool := !(dateLTb b a)

/-- Strict ordering of parsed times (Python `datetime.time` ordering). -/
def timeLTb (a b : PTime) : Bool :=
  decide (a.hour < b.hour) || (a.hour == b.hour && decide (a.minute < b.minute))

/-- Non-strict ordering of parsed times (`<=` on Python `datetime.time`). -/
def timeLEb (a b : PTime) : Bool := !(timeLTb b a)

/-- Code-point lexicographic comparison of character lists — Python's `str`
`<` restricted to the involved code points. -/
def charsLt : List Char → List Char → Bool
  | [], [] => false
  | [], _ :: _ => true
  | _ :: _, [] => false
  | a :: as, b :: bs =>
    if a.val < b.val then true
    else if b.val < a.val then false
    else charsLt as bs

/-- Python string `<` (code-point lexicographic). -/
def strLt (a b : String) : Bool := charsLt a.data b.data

/-- Python string `<=`, i.e. `not (b < a)` for the total order `strLt`. -/
def strLe (a b : String) : Bool := !(strLt b a)

/-- The successor of a calendar date (used to model `timedelta(days=1)`). -/
def nextDay (d : PDate) : PDate :=
  if d.day < daysInMonth d.year d.month then ⟨d.year, d.month, d.day + 1⟩
  else if d.month < 12 then ⟨d.year, d.month + 1, 1⟩
  else ⟨d.year + 1, 1, 1⟩

/-- `d + timedelta(days=n)`. -/
def addDays (d : PDate) : Nat → PDate
  | 0 => d
  | n + 1 => nextDay (addDays d n)

/-- Row of the `doctor` table (the fields the patient-facing handlers read). -/
structure Doctor where
  id : Nat
  name : String
  specialization : String
  is_blacklisted : Bool
deriving DecidableEq, Repr

/-- Row of the `doctor_availability` table. -/
structure DoctorAvailability where
  doctor_id : Nat
  start_date : String
  end_date : String
  start_time : String
  end_time : String
deriving DecidableEq, Repr

/-- Row of the `appointment` table. -/
structure Appointment where
  id : Nat
  patient_id : Nat
  doctor_id : Nat
  date : String
  time : String
  status : String
  reason : String
deriving DecidableEq, Repr

/-- The persistent state the modelled handlers read and write: the doctor
table, the availability registry, the appointment ledger, and the
auto-increment counter for appointment primary keys. -/
structure HState where
  doctors : List Doctor
  availabilities : List DoctorAvailability
  appointments : List Appointment
  nextApptId : Nat
deriving DecidableEq, Repr

/-- Outcome of the POST branch of `patient_book_appointment`.  Each rejecting
constructor corresponds to one `flash(...); return redirect(...)` exit:
`missingFields` = "Doctor, date, and time are required.",
`malformedInput` = the `except` branch "Error verifying doctor availability."
(raised by `datetime.strptime`), `noAvailability` = "Doctor has not set any
availability yet...", `dateOutOfRange` = "Doctor is available from ... to ...",
`timeOutOfRange` = "Doctor is only available from ... to ...",
`slotTaken` = "This time slot is already booked...",
`patientConflict` = "You already have an appointment at this time." -/
inductive BookResult where
  | missingFields
  | malformedInput
  | noAvailability
  | dateOutOfRange
  | timeOutOfRange
  | slotTaken
  | patientConflict
  | booked
deriving DecidableEq, Repr

/-- The validation cascade of the POST branch of `patient_book_appointment`
(control_auth.py lines 840–890).  `registry` is the `doctor_availability`
table, `ledger` the `appointment` table.  The availability lookup takes the
first row for the doctor (`.filter_by(doctor_id=...).first()`); the window's
stored dates are parsed inside the same `try` as the request date, so a
parse failure on either lands in the `except` branch (`malformedInput`);
the requested time is never parsed and is compared as a raw string. -/
def validate_booking (registry : List DoctorAvailability) (ledger : List Appointment)
    (patId docId : Nat) (date time : String) : BookResult :=
  if date == "" || time == "" then .missingFields
  else
    match parseDate date with
    | none => .malformedInput
    | some bookingDate =>
      match (registry.filter (fun a => a.doctor_id == docId)).head? with
      | none => .noAvailability
      | some avail =>
        match parseDate avail.start_date, parseDate avail.end_date with
        | some availStart, some availEnd =>
          if !(dateLEb availStart bookingDate && dateLEb bookingDate availEnd) then
            .dateOutOfRange
          else if strLt time avail.start_time || strLt avail.end_time time then
            .timeOutOfRange
          else if ledger.any (fun ap =>
              ap.doctor_id == docId && ap.date == date && ap.time == time) then
            .slotTaken
          else if ledger.any (fun ap =>
              ap.patient_id == patId && ap.date == date && ap.time == time) then
            .patientConflict
          else .booked
        | _, _ => .malformedInput

/-- The full POST branch of `patient_book_appointment`: run the validation
cascade; on acceptance insert one `Appointment` row with status `"Booked"`
and the requested fields, otherwise leave the store untouched. -/
def patient_book_appointment_post (st : HState) (patId docId : Nat)
    (date time reason : String) : BookResult × HState :=
  match validate_booking st.availabilities st.appointments patId docId date time with
  | .booked =>
    (.booked,
      { st with
        appointments := st.appointments ++
          [{ id := st.nextApptId, patient_id := patId, doctor_id := docId,
             date := date, time := time, status := "Booked", reason := reason }],
        nextApptId := st.nextApptId + 1 })
  | r => (r, st)

/-- Outcome of `doctor_add_availability`.  Each failing constructor
corresponds to one `flash(...); return redirect(...)` exit of the handler:
`missingFields` = "All availability fields are required.",
`invalidDate` = "Invalid date format." (a `ValueError` from
`datetime.strptime` on either date), `startInPast` = "Start date cannot be
in the past.", `rangeTooFar` = "You can only set availability within the
next 7 days.", `endBeforeStart` = "End date must be after or equal to start
date.", `invalidTime` = "Invalid time format.",
`endTimeNotAfterStart` = "End time must be after start time." -/
inductive AvailResult where
  | missingFields
  | invalidDate
  | startInPast
  | rangeTooFar
  | endBeforeStart
  | invalidTime
  | endTimeNotAfterStart
  | ok
deriving DecidableEq, Repr

/-- The `doctor_add_availability` handler (control_auth.py lines 565–624).
`today` is `datetime.utcnow().date()`.  In the source both dates are parsed
before any comparison (a failure on either raises `ValueError` and lands in
the `except` branch), then the three date-range checks run in order, then
both times are parsed, then the time-order check runs; only then is the new
window row inserted. -/
def doctor_add_availability (today : PDate) (registry : List DoctorAvailability)
    (docId : Nat) (start_date end_date start_time end_time : String) :
    AvailResult × List DoctorAvailability :=
  if start_date == "" || end_date == "" || start_time == "" || end_time == "" then
    (.missingFields, registry)
  else
    match parseDate start_date, parseDate end_date with
    | some s, some e =>
      if dateLTb s today then (.startInPast, registry)
      else if dateLTb (addDays today 7) e then (.rangeTooFar, registry)
      else if dateLTb e s then (.endBeforeStart, registry)
      else
        match parseTime start_time, parseTime end_time with
        | some ts, some te =>
          if timeLEb te ts then (.endTimeNotAfterStart, registry)
          else
            (.ok, registry ++
              [{ doctor_id := docId, start_date := start_date, end_date := end_date,
                 start_time := start_time, end_time := end_time }])
        | _, _ => (.invalidTime, registry)
    | _, _ => (.invalidDate, registry)

/-- Outcome of the status-transition handlers. `notFound` is the
`get_or_404` abort, `notAuthorized` the ownership check, `invalidStatus`
the "Invalid status." flash, `updated` the successful commit. -/
inductive UpdateResult where
  | notFound
  | notAuthorized
  | invalidStatus
  | updated
deriving DecidableEq, Repr

/-- `appt.status = new_status; db.session.commit()` — overwrite the status of
the appointment row with primary key `apptId` (primary keys are unique, so
mapping over the table is the row update). -/
def setStatus (ledger : List Appointment) (apptId : Nat) (s : String) :
    List Appointment :=
  ledger.map (fun a => if a.id == apptId then { a with status := s } else a)

/-- The `admin_update_appointment_status` handler (control_auth.py lines
437–453): fetch the appointment (404 if absent), require the requested
status to be one of Booked/Completed/Cancelled, then overwrite the status —
with no check of the current status. -/
def admin_update_appointment_status (ledger : List Appointment) (apptId : Nat)
    (newStatus : String) : UpdateResult × List Appointment :=
  match ledger.find? (fun a => a.id == apptId) with
  | none => (.notFound, ledger)
  | some _ =>
    if newStatus == "Booked" || newStatus == "Completed" || newStatus == "Cancelled" then
      (.updated, setStatus ledger apptId newStatus)
    else (.invalidStatus, ledger)

/-- The `doctor_update_appointment_status` handler (control_auth.py lines
519–539): as the admin handler, but first requiring the appointment to
belong to the requesting doctor.  No check of the current status. -/
def doctor_update_appointment_status (ledger : List Appointment) (docId apptId : Nat)
    (newStatus : String) : UpdateResult × List Appointment :=
  match ledger.find? (fun a => a.id == apptId) with
  | none => (.notFound, ledger)
  | some appt =>
    if appt.doctor_id != docId then (.notAuthorized, ledger)
    else if newStatus == "Booked" || newStatus == "Completed" || newStatus == "Cancelled" then
      (.updated, setStatus ledger apptId newStatus)
    else (.invalidStatus, ledger)

/-- The `patient_cancel_appointment` handler (control_auth.py lines
990–1009): fetch the appointment (404 if absent), require it to belong to
the requesting patient, then set its status to "Cancelled" — with no check
of the current status. -/
def patient_cancel_appointment (ledger : List Appointment) (patId apptId : Nat) :
    UpdateResult × List Appointment :=
  match ledger.find? (fun a => a.id == apptId) with
  | none => (.notFound, ledger)
  | some appt =>
    if appt.patient_id != patId then (.notAuthorized, ledger)
    else (.updated, setStatus ledger apptId "Cancelled")

/-- Case-insensitive substring test — SQL `ilike '%needle%'`. -/
def strContainsCI (hay needle : String) : Bool :=
  (hay.toLower.data.tails.any (fun t => needle.toLower.data.isPrefixOf t))

/-- The query of `patient_search_doctors` (control_auth.py lines 796–810):
start from `Doctor.query.filter_by(is_blacklisted=False)`, then filter by
exact specialization when one was supplied, then by case-insensitive
name substring when one was supplied. -/
def patient_search_doctors (doctors : List Doctor)
    (specialization docName : String) : List Doctor :=
  let q := doctors.filter (fun d => !d.is_blacklisted)
  let q := if specialization != "" then
      q.filter (fun d => d.specialization == specialization)
    else q
  if docName != "" then q.filter (fun d => strContainsCI d.name docName) else q

/-- The doctor list offered by the GET branch of `patient_book_appointment`
(control_auth.py line 903): `Doctor.query.filter_by(is_blacklisted=False)`. -/
def patient_book_appointment_get_doctors (doctors : List Doctor) : List Doctor :=
  doctors.filter (fun d => !d.is_blacklisted)

/-- A string that parses as a date is nonempty. -/
theorem parseDate_ne_empty {s : String} {d : PDate} (h : parseDate s = some d) :
    (s == "") = false := by
  cases hs : s == "" with
  | false => rfl
  | true =>
    have hs' : s = "" := by simpa using hs
    subst hs'
    rw [show parseDate "" = (none : Option PDate) from rfl] at h
    cases h

/-- A string that parses as a time is nonempty. -/
theorem parseTime_ne_empty {s : String} {t : PTime} (h : parseTime s = some t) :
    (s == "") = false := by
  cases hs : s == "" with
  | false => rfl
  | true =>
    have hs' : s = "" := by simpa using hs
    subst hs'
    rw [show parseTime "" = (none : Option PTime) from rfl] at h
    cases h

/-- Claim C1: for every booking request that passes the availability checks
(window exists, request date parses and lies in the window's date range, time
lies lexicographically in the window's time range), `validate_booking` fails
with `slotTaken` whenever any existing appointment row — of any status,
including "Cancelled" — already occupies the same (doctor_id, date, time):
the double-booking filter constrains only doctor, date and time, never
status. -/
theorem slot_taken_includes_cancelled (registry : List DoctorAvailability)
    (ledger : List Appointment) (patId docId : Nat) (date time : String)
    (bd s e : PDate) (avail : DoctorAvailability)
    (hdate : parseDate date = some bd)
    (htne : time ≠ "")
    (havail : (registry.filter (fun a => a.doctor_id == docId)).head? = some avail)
    (hs : parseDate avail.start_date = some s)
    (he : parseDate avail.end_date = some e)
    (hrange : (dateLEb s bd && dateLEb bd e) = true)
    (htimeok : (strLt time avail.start_time || strLt avail.end_time time) = false)
    (hex : ∃ ap ∈ ledger, ap.doctor_id = docId ∧ ap.date = date ∧ ap.time = time) :
    validate_booking registry ledger patId docId date time = BookResult.slotTaken := by
  have hany : ledger.any (fun ap =>
      ap.doctor_id == docId && ap.date == date && ap.time == time) = true := by
    rcases hex with ⟨ap, hmem, h1, h2, h3⟩
    simp only [List.any_eq_true]
    exact ⟨ap, hmem, by simp [h1, h2, h3]⟩
  have hd : (date == "") = false := parseDate_ne_empty hdate
  have ht : (time == "") = false := by simp [htne]
  unfold validate_booking
  simp [hd, ht, hdate, havail, hs, he, hrange, htimeok, hany]

/-- Witness for C1: doctor 1's window covers 2024-06-05 10:00, and a
*Cancelled* appointment of another patient occupies (1, 2024-06-05, 10:00);
patient 3's request for that slot is rejected with `slotTaken`. -/
theorem slot_taken_includes_cancelled_witness :
    validate_booking
      [{ doctor_id := 1, start_date := "2024-06-01", end_date := "2024-06-07",
         start_time := "09:00", end_time := "17:00" }]
      [{ id := 1, patient_id := 2, doctor_id := 1, date := "2024-06-05",
         time := "10:00", status := "Cancelled", reason := "" }]
      3 1 "2024-06-05" "10:00" = BookResult.slotTaken :=
  slot_taken_includes_cancelled _ _ 3 1 "2024-06-05" "10:00"
    ⟨2024, 6, 5⟩ ⟨2024, 6, 1⟩ ⟨2024, 6, 7⟩
    { doctor_id := 1, start_date := "2024-06-01", end_date := "2024-06-07",
      start_time := "09:00", end_time := "17:00" }
    (by decide) (by decide) (by decide) (by decide) (by decide) (by decide) (by decide)
    ⟨{ id := 1, patient_id := 2, doctor_id := 1, date := "2024-06-05",
       time := "10:00", status := "Cancelled", reason := "" },
     by decide, by decide, by decide, by decide⟩

/-- Claim C2: for every booking request that passes the availability checks
and the doctor-slot check, `validate_booking` fails with `patientConflict`
whenever the requesting patient already holds any appointment row (of any
status) at the same (date, time) — the filter constrains only patient, date
and time, so the existing appointment may be with any doctor. -/
theorem patient_conflict_any_doctor (registry : List DoctorAvailability)
    (ledger : List Appointment) (patId docId : Nat) (date time : String)
    (bd s e : PDate) (avail : DoctorAvailability)
    (hdate : parseDate date = some bd)
    (htne : time ≠ "")
    (havail : (registry.filter (fun a => a.doctor_id == docId)).head? = some avail)
    (hs : parseDate avail.start_date = some s)
    (he : parseDate avail.end_date = some e)
    (hrange : (dateLEb s bd && dateLEb bd e) = true)
    (htimeok : (strLt time avail.start_time || strLt avail.end_time time) = false)
    (hnoslot : ledger.any (fun ap =>
      ap.doctor_id == docId && ap.date == date && ap.time == time) = false)
    (hex : ∃ ap ∈ ledger, ap.patient_id = patId ∧ ap.date = date ∧ ap.time = time) :
    validate_booking registry ledger patId docId date time = BookResult.patientConflict := by
  have hany : ledger.any (fun ap =>
      ap.patient_id == patId && ap.date == date && ap.time == time) = true := by
    rcases hex with ⟨ap, hmem, h1, h2, h3⟩
    simp only [List.any_eq_true]
    exact ⟨ap, hmem, by simp [h1, h2, h3]⟩
  have hd : (date == "") = false := parseDate_ne_empty hdate
  have ht : (time == "") = false := by simp [htne]
  unfold validate_booking
  simp [hd, ht, hdate, havail, hs, he, hrange, htimeok, hnoslot, hany]

/-- Witness for C2: patient 1 already has a Booked appointment with doctor 5
at 2024-06-05 10:00; booking doctor 2 at the same date and time is rejected
with `patientConflict` even though doctor 2's slot is free. -/
theorem patient_conflict_any_doctor_witness :
    validate_booking
      [{ doctor_id := 2, start_date := "2024-06-01", end_date := "2024-06-07",
         start_time := "09:00", end_time := "17:00" }]
      [{ id := 1, patient_id := 1, doctor_id := 5, date := "2024-06-05",
         time := "10:00", status := "Booked", reason := "" }]
      1 2 "2024-06-05" "10:00" = BookResult.patientConflict :=
  patient_conflict_any_doctor _ _ 1 2 "2024-06-05" "10:00"
    ⟨2024, 6, 5⟩ ⟨2024, 6, 1⟩ ⟨2024, 6, 7⟩
    { doctor_id := 2, start_date := "2024-06-01", end_date := "2024-06-07",
      start_time := "09:00", end_time := "17:00" }
    (by decide) (by decide) (by decide) (by decide) (by decide) (by decide) (by decide)
    (by decide)
    ⟨{ id := 1, patient_id := 1, doctor_id := 5, date := "2024-06-05",
       time := "10:00", status := "Booked", reason := "" },
     by decide, by decide, by decide, by decide⟩

/-- Claim C3: for every doctor with no availability window on record and any
well-formed requested date and time, `validate_booking` fails with
`noAvailability`, and the POST handler leaves the store unchanged (no
appointment is created). -/
theorem no_availability_always_rejected (st : HState) (patId docId : Nat)
    (date time reason : String) (bd : PDate) (t : PTime)
    (hdate : parseDate date = some bd)
    (htime : parseTime time = some t)
    (hnone : st.availabilities.filter (fun a => a.doctor_id == docId) = []) :
    validate_booking st.availabilities st.appointments patId docId date time =
      BookResult.noAvailability ∧
    patient_book_appointment_post st patId docId date time reason =
      (BookResult.noAvailability, st) := by
  have hv : validate_booking st.availabilities st.appointments patId docId date time =
      BookResult.noAvailability := by
    unfold validate_booking
    rw [parseDate_ne_empty hdate, parseTime_ne_empty htime]
    simp [hdate, hnone]
  refine ⟨hv, ?_⟩
  unfold patient_book_appointment_post
  rw [hv]

/-- Witness for C3: an empty availability registry rejects a well-formed
request with `noAvailability` and the state is unchanged. -/
theorem no_availability_always_rejected_witness :
    validate_booking [] [] 1 1 "2024-06-05" "10:00" = BookResult.noAvailability ∧
    patient_book_appointment_post
      { doctors := [], availabilities := [], appointments := [], nextApptId := 1 }
      1 1 "2024-06-05" "10:00" "visit" =
      (BookResult.noAvailability,
        { doctors := [], availabilities := [], appointments := [], nextApptId := 1 }) :=
  no_availability_always_rejected
    { doctors := [], availabilities := [], appointments := [], nextApptId := 1 }
    1 1 "2024-06-05" "10:00" "visit" ⟨2024, 6, 5⟩ ⟨10, 0⟩
    (by decide) (by decide) (by decide)

/-- Claim C4: given the first retrieved window of the doctor with parsed date
bounds `s`, `e`, a well-formed requested date (parsing to `bd`) passes the
date check — i.e. the request is not rejected with `dateOutOfRange` — iff
`s ≤ bd ≤ e` compared as calendar dates, both boundaries inclusive. -/
theorem date_check_inclusive_iff (registry : List DoctorAvailability)
    (ledger : List Appointment) (patId docId : Nat) (date time : String)
    (bd s e : PDate) (avail : DoctorAvailability)
    (hdate : parseDate date = some bd)
    (htne : time ≠ "")
    (havail : (registry.filter (fun a => a.doctor_id == docId)).head? = some avail)
    (hs : parseDate avail.start_date = some s)
    (he : parseDate avail.end_date = some e) :
    (validate_booking registry ledger patId docId date time ≠ BookResult.dateOutOfRange)
      ↔ (dateLEb s bd = true ∧ dateLEb bd e = true) := by
  have hd : (date == "") = false := parseDate_ne_empty hdate
  have ht : (time == "") = false := by simp [htne]
  unfold validate_booking
  simp only [hd, ht, hdate, havail, hs, he, Bool.or_self, if_false]
  cases hr : (dateLEb s bd && dateLEb bd e) with
  | false =>
    simp only [Bool.not_false, if_true, ← Bool.and_eq_true, hr]
    simp
  | true =>
    have hr' : dateLEb s bd = true ∧ dateLEb bd e = true := by
      constructor <;> simp_all
    simp only [Bool.not_true, Bool.false_eq_true, if_false]
    constructor
    · intro _; exact hr'
    · intro _
      repeat' split
      all_goals simp

/-- Witness for C4 (inclusive lower boundary): a request on the window's
start date 2024-06-01 is not rejected with `dateOutOfRange`. -/
theorem date_check_inclusive_iff_witness :
    validate_booking
      [{ doctor_id := 1, start_date := "2024-06-01", end_date := "2024-06-07",
         start_time := "09:00", end_time := "17:00" }]
      [] 1 1 "2024-06-01" "10:00" ≠ BookResult.dateOutOfRange :=
  (date_check_inclusive_iff _ [] 1 1 "2024-06-01" "10:00"
    ⟨2024, 6, 1⟩ ⟨2024, 6, 1⟩ ⟨2024, 6, 7⟩
    { doctor_id := 1, start_date := "2024-06-01", end_date := "2024-06-07",
      start_time := "09:00", end_time := "17:00" }
    (by decide) (by decide) (by decide) (by decide) (by decide)).mpr
    ⟨by decide, by decide⟩

/-- Claim C5: once the date check has passed, the requested time passes the
time check — i.e. the request is not rejected with `timeOutOfRange` — iff
`start_time ≤ time ≤ end_time` under code-point lexicographic string
comparison (`strLe`), both boundaries inclusive. -/
theorem time_check_lex_iff (registry : List DoctorAvailability)
    (ledger : List Appointment) (patId docId : Nat) (date time : String)
    (bd s e : PDate) (avail : DoctorAvailability)
    (hdate : parseDate date = some bd)
    (htne : time ≠ "")
    (havail : (registry.filter (fun a => a.doctor_id == docId)).head? = some avail)
    (hs : parseDate avail.start_date = some s)
    (he : parseDate avail.end_date = some e)
    (hrange : (dateLEb s bd && dateLEb bd e) = true) :
    (validate_booking registry ledger patId docId date time ≠ BookResult.timeOutOfRange)
      ↔ (strLe avail.start_time time = true ∧ strLe time avail.end_time = true) := by
  have hd : (date == "") = false := parseDate_ne_empty hdate
  have ht : (time == "") = false := by simp [htne]
  unfold validate_booking
  simp only [hd, ht, hdate, havail, hs, he, Bool.or_self, if_false, hrange,
    Bool.not_true, Bool.false_eq_true]
  cases hc : (strLt time avail.start_time || strLt avail.end_time time) with
  | true =>
    simp only [if_true]
    have hor : strLt time avail.start_time = true ∨ strLt avail.end_time time = true := by
      simp_all
    constructor
    · intro hcon; exact absurd rfl hcon
    · rintro ⟨hle1, hle2⟩
      simp only [strLe] at hle1 hle2
      cases hor with
      | inl h => rw [h] at hle1; cases hle1
      | inr h => rw [h] at hle2; cases hle2
  | false =>
    have h1 : strLt time avail.start_time = false := by simp_all
    have h2 : strLt avail.end_time time = false := by simp_all
    constructor
    · intro _
      constructor <;> simp [strLe, h1, h2]
    · intro _
      simp only [Bool.false_eq_true, if_false]
      repeat' split
      all_goals simp

/-- Witness for C5 (inclusive lower boundary): a request at the window's
start time "09:00" is not rejected with `timeOutOfRange`. -/
theorem time_check_lex_iff_witness :
    validate_booking
      [{ doctor_id := 1, start_date := "2024-06-01", end_date := "2024-06-07",
         start_time := "09:00", end_time := "17:00" }]
      [] 1 1 "2024-06-05" "09:00" ≠ BookResult.timeOutOfRange :=
  (time_check_lex_iff _ [] 1 1 "2024-06-05" "09:00"
    ⟨2024, 6, 5⟩ ⟨2024, 6, 1⟩ ⟨2024, 6, 7⟩
    { doctor_id := 1, start_date := "2024-06-01", end_date := "2024-06-07",
      start_time := "09:00", end_time := "17:00" }
    (by decide) (by decide) (by decide) (by decide) (by decide) (by decide)).mpr
    ⟨by decide, by decide⟩

/-- Counterexample to claim C6: the admin status-update handler moves a
"Completed" appointment back to "Booked" — a handler operation does move an
appointment out of the Completed status, because no handler checks the
current status before overwriting it. -/
theorem completed_can_be_reverted :
    admin_update_appointment_status
      [{ id := 1, patient_id := 1, doctor_id := 1, date := "2024-06-05",
         time := "10:00", status := "Completed", reason := "" }] 1 "Booked"
      = (.updated,
         [{ id := 1, patient_id := 1, doctor_id := 1, date := "2024-06-05",
            time := "10:00", status := "Booked", reason := "" }]) := by decide

/-- Claim C6 (amended): none of the three status-affecting handlers inspects
the current status.  Whenever the appointment exists and the requested status
is one of Booked/Completed/Cancelled, `admin_update_appointment_status` and
`doctor_update_appointment_status` (for the owning doctor) overwrite the
appointment's status with the requested value, and
`patient_cancel_appointment` (for the owning patient) overwrites it with
"Cancelled" — so appointments can be moved out of Completed or Cancelled. -/
theorem status_handlers_ignore_current_status (ledger : List Appointment)
    (apptId : Nat) (newStatus : String) (appt : Appointment)
    (hvalid : newStatus = "Booked" ∨ newStatus = "Completed" ∨ newStatus = "Cancelled")
    (hfound : ledger.find? (fun a => a.id == apptId) = some appt) :
    admin_update_appointment_status ledger apptId newStatus =
      (.updated, setStatus ledger apptId newStatus) ∧
    doctor_update_appointment_status ledger appt.doctor_id apptId newStatus =
      (.updated, setStatus ledger apptId newStatus) ∧
    patient_cancel_appointment ledger appt.patient_id apptId =
      (.updated, setStatus ledger apptId "Cancelled") ∧
    (∀ a ∈ setStatus ledger apptId newStatus, a.id = apptId → a.status = newStatus) := by
  have hv : (newStatus == "Booked" || newStatus == "Completed" ||
      newStatus == "Cancelled") = true := by
    rcases hvalid with h | h | h <;> simp [h]
  refine ⟨?_, ?_, ?_, ?_⟩
  · unfold admin_update_appointment_status
    rw [hfound, hv]
    simp
  · unfold doctor_update_appointment_status
    rw [hfound]
    simp [hv]
  · unfold patient_cancel_appointment
    rw [hfound]
    simp
  · intro a ha hid
    unfold setStatus at ha
    rcases List.mem_map.mp ha with ⟨x, hx, hax⟩
    by_cases hxid : (x.id == apptId) = true
    · rw [if_pos hxid] at hax
      rw [← hax]
    · rw [if_neg hxid] at hax
      subst hax
      exact absurd (by simp [hid]) hxid

/-- Witness for the amended C6: the admin handler overwrites the status of a
Cancelled appointment with "Booked". -/
theorem status_handlers_ignore_current_status_witness :
    admin_update_appointment_status
      [{ id := 1, patient_id := 1, doctor_id := 1, date := "2024-06-05",
         time := "10:00", status := "Cancelled", reason := "" }] 1 "Booked" =
      (.updated,
        setStatus
          [{ id := 1, patient_id := 1, doctor_id := 1, date := "2024-06-05",
             time := "10:00", status := "Cancelled", reason := "" }] 1 "Booked") :=
  (status_handlers_ignore_current_status _ 1 "Booked"
    { id := 1, patient_id := 1, doctor_id := 1, date := "2024-06-05",
      time := "10:00", status := "Cancelled", reason := "" }
    (Or.inl rfl) (by decide)).1

/-- Claim C7: with all four fields supplied, `doctor_add_availability` appends
exactly one new window iff both dates parse, the start date is not in the
past, the end date is at most the current date plus 7 days, the end date is
not before the start date, both times parse, and the end time is strictly
after the start time; otherwise it appends nothing and fails with the error
of the first failing check (`invalidDate`, `startInPast`, `rangeTooFar`,
`endBeforeStart`, `invalidTime`, `endTimeNotAfterStart` — the last also when
end time equals start time, since the code rejects `end_time <= start_time`). -/
theorem add_availability_spec (today : PDate) (registry : List DoctorAvailability)
    (docId : Nat) (sd ed st et : String)
    (h1 : sd ≠ "") (h2 : ed ≠ "") (h3 : st ≠ "") (h4 : et ≠ "") :
    (let r := doctor_add_availability today registry docId sd ed st et
     ((r.1 = AvailResult.ok ↔ ∃ s e ts te,
         parseDate sd = some s ∧ parseDate ed = some e ∧
         parseTime st = some ts ∧ parseTime et = some te ∧
         dateLTb s today = false ∧ dateLTb (addDays today 7) e = false ∧
         dateLTb e s = false ∧ timeLEb te ts = false) ∧
      (r.1 = AvailResult.ok →
        r.2 = registry ++ [{ doctor_id := docId, start_date := sd, end_date := ed,
                             start_time := st, end_time := et }]) ∧
      (r.1 ≠ AvailResult.ok → r.2 = registry) ∧
      ((parseDate sd = none ∨ parseDate ed = none) → r.1 = AvailResult.invalidDate) ∧
      (∀ s e, parseDate sd = some s → parseDate ed = some e →
        (dateLTb s today = true → r.1 = AvailResult.startInPast) ∧
        (dateLTb s today = false → dateLTb (addDays today 7) e = true →
          r.1 = AvailResult.rangeTooFar) ∧
        (dateLTb s today = false → dateLTb (addDays today 7) e = false →
          dateLTb e s = true → r.1 = AvailResult.endBeforeStart) ∧
        (dateLTb s today = false → dateLTb (addDays today 7) e = false →
          dateLTb e s = false → (parseTime st = none ∨ parseTime et = none) →
          r.1 = AvailResult.invalidTime) ∧
        (∀ ts te, parseTime st = some ts → parseTime et = some te →
          dateLTb s today = false → dateLTb (addDays today 7) e = false →
          dateLTb e s = false → timeLEb te ts = true →
          r.1 = AvailResult.endTimeNotAfterStart)))) := by
  have e1 : (sd == "") = false := by simp [h1]
  have e2 : (ed == "") = false := by simp [h2]
  have e3 : (st == "") = false := by simp [h3]
  have e4 : (et == "") = false := by simp [h4]
  unfold doctor_add_availability
  simp only [e1, e2, e3, e4, Bool.or_self, Bool.or_false, Bool.false_or,
    Bool.false_eq_true, if_false]
  cases hsd : parseDate sd with
  | none => simp [hsd]
  | some s =>
    cases hed : parseDate ed with
    | none => simp [hsd, hed]
    | some e =>
      cases hA : dateLTb s today with
      | true => simp [hsd, hed, hA]
      | false =>
        cases hB : dateLTb (addDays today 7) e with
        | true => simp [hsd, hed, hA, hB]
        | false =>
          cases hC : dateLTb e s with
          | true => simp [hsd, hed, hA, hB, hC]
          | false =>
            cases hts : parseTime st with
            | none => simp [hsd, hed, hA, hB, hC, hts]
            | some ts =>
              cases hte : parseTime et with
              | none => simp [hsd, hed, hA, hB, hC, hts, hte]
              | some te =>
                cases hD : timeLEb te ts with
                | true => simp [hsd, hed, hA, hB, hC, hts, hte, hD]
                | false => simp [hsd, hed, hA, hB, hC, hts, hte, hD]

/-- Witness for C7: on 2024-06-01, a window 2024-06-02..2024-06-05,
09:00..17:00 is accepted. -/
theorem add_availability_spec_witness :
    (doctor_add_availability ⟨2024, 6, 1⟩ [] 1
      "2024-06-02" "2024-06-05" "09:00" "17:00").1 = AvailResult.ok :=
  (add_availability_spec ⟨2024, 6, 1⟩ [] 1 "2024-06-02" "2024-06-05" "09:00" "17:00"
    (by decide) (by decide) (by decide) (by decide)).1.mpr
    ⟨⟨2024, 6, 2⟩, ⟨2024, 6, 5⟩, ⟨9, 0⟩, ⟨17, 0⟩,
     by decide, by decide, by decide, by decide,
     by decide, by decide, by decide, by decide⟩

/-- Counterexample to claim C8: "1000" is not a well-formed HH:MM time
(`parseTime` rejects it), yet the booking request supplying it is *not*
rejected as malformed — the handler never parses the time string; the
lexical comparisons accept "1000" inside the window "09:00".."17:00" and the
booking succeeds. -/
theorem malformed_time_is_processed :
    parseTime "1000" = none ∧
    validate_booking
      [{ doctor_id := 1, start_date := "2024-06-01", end_date := "2024-06-07",
         start_time := "09:00", end_time := "17:00" }] [] 1 1 "2024-06-05" "1000"
      = BookResult.booked := ⟨by decide, by decide⟩

/-- Claim C8 (amended): a supplied date string that fails to parse as a date
makes `validate_booking` fail with `malformedInput` (the `strptime`
exception path); the supplied time string, however, is never parsed — a
malformed time is processed by the lexical comparisons and can even be
accepted. -/
theorem malformed_date_rejected (registry : List DoctorAvailability)
    (ledger : List Appointment) (patId docId : Nat) (date time : String)
    (hdne : date ≠ "") (htne : time ≠ "")
    (hbad : parseDate date = none) :
    validate_booking registry ledger patId docId date time =
      BookResult.malformedInput := by
  have hd : (date == "") = false := by simp [hdne]
  have ht : (time == "") = false := by simp [htne]
  unfold validate_booking
  simp [hd, ht, hbad]

/-- Witness for the amended C8: month 13 does not parse, so the request is
rejected with `malformedInput`. -/
theorem malformed_date_rejected_witness :
    validate_booking [] [] 1 1 "2024-13-01" "10:00" = BookResult.malformedInput :=
  malformed_date_rejected [] [] 1 1 "2024-13-01" "10:00"
    (by decide) (by decide) (by decide)

/-- Counterexample to claim C9: a blacklisted doctor is absent from the
patient-facing search results, yet a direct booking request naming that
doctor is accepted — the POST branch of `patient_book_appointment` performs
no blacklist check. -/
theorem blacklisted_doctor_booking_accepted :
    patient_search_doctors
      [{ id := 1, name := "X", specialization := "Cardio",
         is_blacklisted := true }] "" "" = [] ∧
    (patient_book_appointment_post
      { doctors := [{ id := 1, name := "X", specialization := "Cardio",
                      is_blacklisted := true }],
        availabilities := [{ doctor_id := 1, start_date := "2024-06-01",
                             end_date := "2024-06-07", start_time := "09:00",
                             end_time := "17:00" }],
        appointments := [], nextApptId := 1 }
      1 1 "2024-06-05" "10:00" "checkup").1 = BookResult.booked :=
  ⟨by decide, by decide⟩

/-- Claim C9 (amended): blacklisted doctors never appear in the
patient-facing search results nor in the booking form's doctor list, but the
booking POST validation itself performs no blacklist check, so a direct
booking request naming a blacklisted doctor can be accepted. -/
theorem blacklisted_never_listed (doctors : List Doctor)
    (specialization docName : String) :
    (∀ d ∈ patient_search_doctors doctors specialization docName,
      d.is_blacklisted = false) ∧
    (∀ d ∈ patient_book_appointment_get_doctors doctors,
      d.is_blacklisted = false) := by
  constructor
  · intro d hmem
    simp only [patient_search_doctors] at hmem
    split at hmem <;> split at hmem <;> simp_all [List.mem_filter]
  · intro d hmem
    simp only [patient_book_appointment_get_doctors] at hmem
    simp_all [List.mem_filter]

/-- Witness for the amended C9: a non-blacklisted doctor that appears in the
search results indeed has a cleared blacklist flag. -/
theorem blacklisted_never_listed_witness :
    ({ id := 1, name := "A", specialization := "S",
       is_blacklisted := false } : Doctor).is_blacklisted = false :=
  (blacklisted_never_listed
    [{ id := 1, name := "A", specialization := "S", is_blacklisted := false }] "" "").1
    { id := 1, name := "A", specialization := "S", is_blacklisted := false }
    (by decide)

/-- Claim C10: booking is atomic.  Every run of the POST branch of
`patient_book_appointment` either accepts and appends exactly one new
appointment row — with status "Booked", the requested patient, doctor, date
and time, and the next primary key — leaving the other tables unchanged, or
rejects and leaves the whole state exactly as it was. -/
theorem booking_is_atomic (st : HState) (patId docId : Nat)
    (date time reason : String) :
    (let p := patient_book_appointment_post st patId docId date time reason
     (p.1 = BookResult.booked ∧
       p.2.appointments = st.appointments ++
         [{ id := st.nextApptId, patient_id := patId, doctor_id := docId,
            date := date, time := time, status := "Booked", reason := reason }] ∧
       p.2.availabilities = st.availabilities ∧
       p.2.doctors = st.doctors) ∨
     (p.1 ≠ BookResult.booked ∧ p.2 = st)) := by
  unfold patient_book_appointment_post
  cases h : validate_booking st.availabilities st.appointments patId docId date time <;>
    simp [h]
